import Mathlib

/-!
Verification of the darlybot song-navigation bridge.

The repository ships browser userscripts (modelled below from
`src/scripts/darlybot-userscript.js`, `src/unnamed/part_000` and
`src/web/rofebot-bridge.user.js`) together with documentation of a local
bridge whose Python core (SongCatalog, NavigationPlanner, InputDispatcher,
RequestGate) is not present in the repository snapshot; that core is
modelled here from the specification's own words.
-/

namespace Darlybot

/-- Modelled from the spec: the `groupKey` classification of a song title's
leading character — one Latin letter a–z, or one of the two overflow
classes "non-Latin" and "symbol/digit".  The Python module implementing
SongCatalog is missing from the repository snapshot. -/
inductive GroupKey where
  | letter (c : Char)
  | nonLatin
  | symbolDigit
deriving DecidableEq, Repr

/-- Modelled from the spec: a character survives normalization when it is
alphanumeric or non-ASCII; ASCII punctuation, symbols and whitespace are
stripped. -/
def keepChar (c : Char) : Bool :=
  c.isAlphanum || !(c.toNat < 128)

/-- Modelled from the spec: title normalization — lower-cased, with
punctuation and whitespace stripped — used for matching.  The Python
normalization function is missing from the repository snapshot. -/
def normalize (s : String) : String :=
  String.mk ((s.toList.filter keepChar).map Char.toLower)

/-- Modelled from the spec: classification of a title's leading character.
A Latin letter yields its lower-cased letter group; any other ASCII
character yields the symbol/digit overflow class; any non-ASCII character
yields the non-Latin overflow class.  An empty title is placed in the
symbol/digit class. -/
def classifyLeading (title : String) : GroupKey :=
  match title.toList with
  | [] => .symbolDigit
  | c :: _ =>
      if c.isAlpha then .letter c.toLower
      else if c.toNat < 128 then .symbolDigit
      else .nonLatin

/-- Modelled from the spec: a Song record with optional stable id, display
title, derived normalized title, group classification and zero-based rank
within its group. -/
structure Song where
  id : Option String
  title : String
  normalizedTitle : String
  groupKey : GroupKey
  sequenceIndex : Nat
deriving DecidableEq, Repr

/-- Modelled from the spec: the SongCatalog, an ordered sequence of Songs
(the id/title/group indexes are derived functions below).  The Python
module implementing it is missing from the repository snapshot. -/
structure SongCatalog where
  songs : List Song
deriving DecidableEq, Repr

/-- Modelled from the spec: the known header literals of the optional CSV
header row ("title" per the spec's example, "곡명" per the bundled
README). -/
def isHeaderTitle (t : String) : Bool :=
  t == "title" || t == "곡명"

/-- Modelled from the spec: build one Song from a raw `(id, title)` record,
given the running per-group counters; an empty id field means the id is
absent. -/
def mkSong (counts : GroupKey → Nat) (row : String × String) : Song :=
  let g := classifyLeading row.2
  { id := if row.1.isEmpty then none else some row.1
    title := row.2
    normalizedTitle := normalize row.2
    groupKey := g
    sequenceIndex := counts g }

/-- Modelled from the spec: fold over the data rows assigning each song its
`sequenceIndex` as the running count within its group, in input order. -/
def buildSongs : (GroupKey → Nat) → List (String × String) → List Song
  | _, [] => []
  | counts, row :: rest =>
      let s := mkSong counts row
      s :: buildSongs (fun k => if k = s.groupKey then counts k + 1 else counts k) rest

/-- Modelled from the spec: `load(rows)` — consumes an ordered sequence of
raw `(id, title)` records, auto-detecting and skipping an optional header
row, and classifies/indexes every song. -/
def load (rows : List (String × String)) : SongCatalog :=
  match rows with
  | [] => ⟨[]⟩
  | r :: rest =>
      if isHeaderTitle r.2 then ⟨buildSongs (fun _ => 0) rest⟩
      else ⟨buildSongs (fun _ => 0) (r :: rest)⟩

/-- Modelled from the spec: the error taxonomy entries relevant to query
resolution. -/
inductive BridgeError where
  | invalidQuery
  | songNotFound
deriving DecidableEq, Repr

/-- Modelled from the spec: `lookupById(id)` — finds the song with the given
stable id, if any. -/
def lookupById (c : SongCatalog) (i : String) : Option Song :=
  c.songs.find? fun s => s.id == some i

/-- Decides whether the first character list is a prefix of the second. -/
def seqPrefixOf : List Char → List Char → Bool
  | [], _ => true
  | _ :: _, [] => false
  | a :: as, b :: bs => a == b && seqPrefixOf as bs

/-- Decides whether the first character list occurs contiguously inside the
second. -/
def seqInfixOf (needle : List Char) : List Char → Bool
  | [] => seqPrefixOf needle []
  | b :: bs => seqPrefixOf needle (b :: bs) || seqInfixOf needle bs

/-- Substring test on the normalized strings, used by the fallback title
match. -/
def isSubstrOf (needle hay : String) : Bool :=
  seqInfixOf needle.toList hay.toList

/-- Modelled from the spec: `lookupByTitle(query)` — normalizes the query
the same way titles are normalized, tries an exact normalized match, falls
back to a normalized substring match against the full catalog returning the
first source-order match, and fails with `SongNotFound` otherwise. -/
def lookupByTitle (c : SongCatalog) (q : String) : Except BridgeError Song :=
  let nq := normalize q
  match c.songs.find? (fun s => s.normalizedTitle == nq) with
  | some s => .ok s
  | none =>
      match c.songs.find? (fun s => isSubstrOf nq s.normalizedTitle) with
      | some s => .ok s
      | none => .error .songNotFound

/-- Modelled from the spec: a NavigationQuery carrying an optional id and/or
an optional title. -/
structure NavigationQuery where
  id : Option String
  title : Option String
deriving DecidableEq, Repr

/-- Modelled from the spec: query resolution — `id` wins if present and the
id lookup succeeds; `title` is consulted only when `id` is absent or
unresolved; a query with neither field is invalid. -/
def resolve (c : SongCatalog) (q : NavigationQuery) : Except BridgeError Song :=
  match q.id with
  | some i =>
      match lookupById c i with
      | some s => .ok s
      | none =>
          match q.title with
          | some t => lookupByTitle c t
          | none => .error .songNotFound
  | none =>
      match q.title with
      | some t => lookupByTitle c t
      | none => .error .invalidQuery

/-- Modelled from the spec: the InputStep action alphabet of the
NavigationPlanner. -/
inductive StepAction where
  | pressLetter (c : Char)
  | quickJumpNonLatin
  | quickJumpSymbol
  | moveUp
  | moveDown
  | confirm
deriving DecidableEq, Repr

/-- Modelled from the spec: one InputStep — an action plus the delay slept
after it. -/
structure InputStep where
  action : StepAction
  delayAfter : Nat
deriving DecidableEq, Repr

/-- Modelled from the spec: planner configuration — whether the trailing
confirm step is enabled, and the two configured delays (alphabet-jump delay
and arrow-key delay). -/
structure PlanConfig where
  pressEnter : Bool
  jumpDelay : Nat
  keyDelay : Nat
deriving DecidableEq, Repr

/-- Modelled from the spec: the entry step(s) of a plan — a direct letter
shortcut for a Latin group; for the two overflow groups, `press-letter('a')`
first, then the corresponding quick-jump key. -/
def entrySteps (cfg : PlanConfig) (g : GroupKey) : List InputStep :=
  match g with
  | .letter c => [⟨.pressLetter c, cfg.jumpDelay⟩]
  | .nonLatin => [⟨.pressLetter 'a', cfg.jumpDelay⟩, ⟨.quickJumpNonLatin, cfg.jumpDelay⟩]
  | .symbolDigit => [⟨.pressLetter 'a', cfg.jumpDelay⟩, ⟨.quickJumpSymbol, cfg.jumpDelay⟩]

/-- Modelled from the spec: the offset steps — `move-down` repeated
`sequenceIndex` times. -/
def offsetSteps (cfg : PlanConfig) (n : Nat) : List InputStep :=
  List.replicate n ⟨.moveDown, cfg.keyDelay⟩

/-- Modelled from the spec: the optional configuration-gated trailing
confirm step. -/
def confirmSteps (cfg : PlanConfig) : List InputStep :=
  if cfg.pressEnter then [⟨.confirm, cfg.keyDelay⟩] else []

/-- Modelled from the spec: `computePlan` — entry step(s), then the offset
walk, then the optional confirm step; pure data, no side effect. -/
def computePlan (cfg : PlanConfig) (s : Song) : List InputStep :=
  entrySteps cfg s.groupKey ++ offsetSteps cfg s.sequenceIndex ++ confirmSteps cfg

/-- Modelled from the spec: resolve a query and compute its plan,
propagating resolution errors. -/
def planForQuery (cfg : PlanConfig) (c : SongCatalog) (q : NavigationQuery) :
    Except BridgeError (List InputStep) :=
  (resolve c q).map (computePlan cfg)

/-- The four-row example catalog input used by the specification. -/
def exampleRows : List (String × String) :=
  [("", "Airwave"), ("", "Binary Sunset"), ("", "Binary Star"), ("", "Cradle")]

/-- The catalog built from the example rows. -/
def exampleCatalog : SongCatalog := load exampleRows

/-- A configuration with the confirm step disabled, matching the spec's
example plan which ends without a confirm. -/
def defaultConfig : PlanConfig := ⟨false, 30, 5⟩

/-- Modelled from the spec: the terminal statuses of a dispatch attempt. -/
inductive DispatchStatus where
  | completed
  | aborted
  | cancelled
deriving DecidableEq, Repr

/-- Modelled from the spec: a DispatchOutcome — the count of fully executed
steps and the terminal status. -/
structure DispatchOutcome where
  completedSteps : Nat
  status : DispatchStatus
deriving DecidableEq, Repr

/-- Observable trace of one dispatch: the steps fully executed in order,
the delays slept after each executed step (the timing profile), and the
real OS key-injection calls attempted. -/
structure RunTrace where
  executed : List InputStep
  slept : List Nat
  osSends : List StepAction
deriving DecidableEq, Repr

/-- The empty trace. -/
def emptyTrace : RunTrace := ⟨[], [], []⟩

/-- Modelled from the spec: the InputDispatcher's step interpreter, missing
from the repository snapshot.  It executes steps strictly in order from
completed-count `k`: before each step the cooperative cancellation flag is
checked; in dry-run mode the OS-level key send is replaced by a no-op while
state transitions and timing are unchanged; in real mode the key send is
attempted (recorded in `osSends`) and a send error aborts the remaining
steps, reporting the number of steps completed before the failure. -/
def runPlan (dryRun : Bool) (cancel : Nat → Bool) (sendOk : Nat → Bool) :
    Nat → List InputStep → RunTrace × DispatchOutcome
  | k, [] => (emptyTrace, ⟨k, .completed⟩)
  | k, step :: rest =>
      if cancel k then (emptyTrace, ⟨k, .cancelled⟩)
      else if dryRun then
        let r := runPlan dryRun cancel sendOk (k + 1) rest
        (⟨step :: r.1.executed, step.delayAfter :: r.1.slept, r.1.osSends⟩, r.2)
      else if sendOk k then
        let r := runPlan dryRun cancel sendOk (k + 1) rest
        (⟨step :: r.1.executed, step.delayAfter :: r.1.slept, step.action :: r.1.osSends⟩, r.2)
      else
        (⟨[], [], [step.action]⟩, ⟨k, .aborted⟩)

/-- Modelled from the spec: `dispatch(plan)` — run the interpreter from the
start of the plan. -/
def dispatch (dryRun : Bool) (cancel : Nat → Bool) (sendOk : Nat → Bool)
    (plan : List InputStep) : RunTrace × DispatchOutcome :=
  runPlan dryRun cancel sendOk 0 plan

/-- Modelled from the spec: a request presented to the RequestGate — its
dry-run flag and the plan it wants dispatched. -/
structure GateReq where
  dryRun : Bool
  plan : List InputStep
deriving DecidableEq, Repr

/-- Modelled from the spec: one in-flight dispatch tracked by the gate,
with its completed-step progress. -/
structure InFlight where
  plan : List InputStep
  done : Nat
deriving DecidableEq, Repr

/-- Modelled from the spec: the RequestGate's state — the collection of
currently active dispatches (the gate must keep it at most a singleton). -/
structure GateState where
  inFlight : List InFlight
deriving DecidableEq, Repr

/-- Modelled from the spec: the gate's answer to an event. -/
inductive GateResp where
  | admitted
  | busy
  | ack
deriving DecidableEq, Repr

/-- Modelled from the spec: the events the gate reacts to — an incoming
request, one step of progress by the active dispatch, and termination of
the active dispatch (with any outcome). -/
inductive GateEvent where
  | request (r : GateReq)
  | progress
  | finish
deriving DecidableEq, Repr

/-- Modelled from the spec: the RequestGate's transition function, missing
from the repository snapshot.  Dry-run requests are exempt from the gate; a
non-dry-run request is admitted only when nothing is in flight and is
otherwise rejected with `Busy`, leaving the state untouched; after any
outcome the gate returns to the idle state. -/
def gateStep (g : GateState) : GateEvent → GateState × GateResp
  | .request r =>
      if r.dryRun then (g, .admitted)
      else if g.inFlight.isEmpty then (⟨[⟨r.plan, 0⟩]⟩, .admitted)
      else (g, .busy)
  | .progress => (⟨g.inFlight.map fun f => ⟨f.plan, f.done + 1⟩⟩, .ack)
  | .finish => (⟨[]⟩, .ack)

/-- Run the gate over a sequence of events. -/
def runGate (g : GateState) : List GateEvent → GateState
  | [] => g
  | e :: es => runGate (gateStep g e).1 es

/-- The idle gate state: nothing in flight. -/
def idleGate : GateState := ⟨[]⟩

/-- JavaScript truthiness of a string-or-undefined value: `undefined` and
the empty string are falsy. -/
def jsTruthy (v : Option String) : Bool :=
  match v with
  | some s => !s.isEmpty
  | none => false

/-- JavaScript `a || b` on two string-or-undefined values. -/
def jsOr (a b : Option String) : Option String :=
  if jsTruthy a then a else b

/-- JavaScript `a || b` where `a` is string-or-undefined and `b` is a plain
string; the result is a plain string. -/
def jsOrStr (a : Option String) (b : String) : String :=
  match a with
  | some s => if s.isEmpty then b else s
  | none => b

/-- JavaScript `v || undefined` on a plain string: an empty string is
coalesced to `undefined`. -/
def jsUndefIfEmpty (s : String) : Option String :=
  if s.isEmpty then none else some s

/-- Model of the payload object built by `extractSong` in
`src/scripts/darlybot-userscript.js` and `src/unnamed/part_000`: each field
is a string or `undefined`. -/
structure SongPayload where
  title_number : Option String
  title : Option String
deriving DecidableEq, Repr

/-- Outcome of `sendNavigate` in the darlybot userscripts: either the early
return after the console warning, or an HTTP fetch of the payload. -/
inductive NavAction where
  | warned
  | fetched (p : SongPayload)
deriving DecidableEq, Repr

/-- Model of `sendNavigate` in `src/scripts/darlybot-userscript.js` and
`src/unnamed/part_000` (the two scripts share this function verbatim): when
neither `payload.title` nor `payload.title_number` is truthy it logs a
warning and returns without calling `fetch`; otherwise it posts the
payload. -/
def sendNavigate (p : SongPayload) : NavAction :=
  if !jsTruthy p.title && !jsTruthy p.title_number then .warned
  else .fetched p

/-- Model of a DOM tile as seen by `extractSong` in
`src/scripts/darlybot-userscript.js`: the relevant `data-*` attributes
(string or `undefined`), the text content of the first element matching the
title selector (`none` when no element matches), and the tile's own text
content. -/
structure DarlyTile where
  datasetTitleNumber : Option String
  datasetSongId : Option String
  datasetId : Option String
  datasetTitle : Option String
  datasetSongTitle : Option String
  titleElemText : Option String
  tileText : String
deriving DecidableEq, Repr

/-- Model of `extractSong` in `src/scripts/darlybot-userscript.js`:
`titleNumber` is the `||`-chain over the three dataset attributes ending in
the empty string; `title` falls back from dataset attributes to the queried
title element's trimmed text, then to the tile's trimmed text; both results
are coalesced with `|| undefined`. -/
def extractSong (t : DarlyTile) : SongPayload :=
  let titleNumber := jsOrStr (jsOr t.datasetTitleNumber t.datasetSongId) (jsOrStr t.datasetId "")
  let title0 := jsOrStr (jsOr t.datasetTitle t.datasetSongTitle) ""
  let title1 :=
    if title0.isEmpty then
      match t.titleElemText with
      | some txt => txt.trim
      | none => title0
    else title0
  let title2 := if title1.isEmpty then t.tileText.trim else title1
  ⟨jsUndefIfEmpty titleNumber, jsUndefIfEmpty title2⟩

/-- Model of a DOM tile as seen by `extractSong` in `src/unnamed/part_000`:
dataset attributes, the captured digit group of the cover-image source
regex when it matches, the optional-chained trimmed texts of the title
element and the image `alt` attribute (string or `undefined`), and the
tile's text content. -/
structure DarlyTileB where
  datasetTitleNumber : Option String
  datasetSongId : Option String
  datasetId : Option String
  imgSrcMatch : Option String
  datasetTitle : Option String
  datasetSongTitle : Option String
  titleElemTrimmed : Option String
  imgAltTrimmed : Option String
  tileText : String
deriving DecidableEq, Repr

/-- Model of `extractSong` in `src/unnamed/part_000`: `titleNumber` falls
back from dataset attributes to the image-source regex capture (empty
string when the regex does not match); `title` falls back from dataset
attributes through the optional-chained element texts to the tile's trimmed
text; both are coalesced with `|| undefined`. -/
def extractSongB (t : DarlyTileB) : SongPayload :=
  let titleNumber := jsOrStr (jsOr t.datasetTitleNumber t.datasetSongId)
      (jsOrStr t.datasetId (t.imgSrcMatch.getD ""))
  let title := jsOrStr (jsOr t.datasetTitle t.datasetSongTitle)
      (jsOrStr t.titleElemTrimmed (jsOrStr t.imgAltTrimmed t.tileText.trim))
  ⟨jsUndefIfEmpty titleNumber, jsUndefIfEmpty title⟩

/-- Model of a DOM tile as seen by `buildPayload` in
`src/web/rofebot-bridge.user.js`: dataset attributes and the `textFrom`
results for the title and number selectors (always plain strings — the
code maps a missing element or missing text content to the empty
string). -/
structure RofeTile where
  datasetSongTitle : Option String
  datasetSongNumber : Option String
  datasetSongId : Option String
  titleText : String
  numberText : String
deriving DecidableEq, Repr

/-- Payload posted by the rofebot bridge userscript. -/
structure RofePayload where
  title : String
  titleNumber : String
deriving DecidableEq, Repr

/-- Model of `buildPayload` in `src/web/rofebot-bridge.user.js`: the title
is `dataset.songTitle || textFrom(tile, TITLE_SELECTOR)` trimmed, the
number is `dataset.songNumber || dataset.songId || textFrom(tile,
NUMBER_SELECTOR)` trimmed; when both are empty the function returns
`null`. -/
def buildPayload (t : RofeTile) : Option RofePayload :=
  let title := (jsOrStr t.datasetSongTitle t.titleText).trim
  let titleNumber := (jsOrStr (jsOr t.datasetSongNumber t.datasetSongId) t.numberText).trim
  if title.isEmpty && titleNumber.isEmpty then none
  else some ⟨title, titleNumber⟩

/-- Outcome of the rofebot context-menu handler: either the early return
(no HTTP post) or a `postSelection` of the payload. -/
inductive RofeAction where
  | noPost
  | posted (p : RofePayload)
deriving DecidableEq, Repr

/-- Model of the `contextmenu` handler in `src/web/rofebot-bridge.user.js`
after a tile was found: when `buildPayload` yields `null` the handler logs
a warning and returns before `postSelection`; otherwise it posts the
payload. -/
def handleContextMenu (t : RofeTile) : RofeAction :=
  match buildPayload t with
  | none => .noPost
  | some p => .posted p

/-- Rows for the id-precedence example: the id "002" names the song "Beta"
while the title "Alpha" names a different song. -/
def precedenceRows : List (String × String) :=
  [("001", "Alpha"), ("002", "Beta")]

/-- Catalog built from the id-precedence example rows. -/
def precedenceCatalog : SongCatalog := load precedenceRows

end Darlybot

namespace Darlybot

/-- Helper: every song produced by `buildSongs` carries the normalization
of its own title. -/
theorem buildSongs_normalizedTitle (rows : List (String × String)) :
    ∀ (counts : GroupKey → Nat), ∀ s ∈ buildSongs counts rows,
      s.normalizedTitle = normalize s.title := by
  induction rows with
  | nil => intro counts s hs; simp [buildSongs] at hs
  | cons r rest ih =>
      intro counts s hs
      simp only [buildSongs, List.mem_cons] at hs
      rcases hs with rfl | hs
      · rfl
      · exact ih _ s hs

/-- Helper: when `find?` succeeds, the found element is the first match in
source order — the list splits around it and everything earlier fails the
predicate. -/
theorem find?_eq_some_first {α : Type} {p : α → Bool} {l : List α} {a : α}
    (h : l.find? p = some a) :
    ∃ l1 l2, l = l1 ++ a :: l2 ∧ p a = true ∧ ∀ x ∈ l1, p x = false := by
  induction l with
  | nil => simp [List.find?] at h
  | cons b t ih =>
      by_cases hb : p b = true
      · rw [List.find?_cons_of_pos _ hb] at h
        cases h
        exact ⟨[], t, rfl, hb, by simp⟩
      · rw [List.find?_cons_of_neg _ (by simpa using hb)] at h
        obtain ⟨l1, l2, hl, hpa, hall⟩ := ih h
        refine ⟨b :: l1, l2, by simp [hl], hpa, ?_⟩
        intro x hx
        rcases List.mem_cons.mp hx with rfl | hx
        · simpa using hb
        · exact hall x hx

/-- Helper: the executable prefix test agrees with the library prefix
relation. -/
theorem seqPrefixOf_iff (n h : List Char) : seqPrefixOf n h = true ↔ n <+: h := by
  induction n generalizing h with
  | nil => simp [seqPrefixOf]
  | cons a as ih =>
      cases h with
      | nil => simp [seqPrefixOf]
      | cons b bs =>
          simp [seqPrefixOf, Bool.and_eq_true, beq_iff_eq, ih, List.cons_prefix_cons]

/-- Helper: the executable contiguous-substring test agrees with the
library infix relation. -/
theorem seqInfixOf_iff (n h : List Char) : seqInfixOf n h = true ↔ n <:+: h := by
  induction h with
  | nil =>
      simp [seqInfixOf, seqPrefixOf_iff]
  | cons b bs ih =>
      simp [seqInfixOf, seqPrefixOf_iff, ih, List.infix_cons_iff]

/-- Helper: `isSubstrOf` on strings is the infix relation on their
character lists. -/
theorem isSubstrOf_iff (needle hay : String) :
    isSubstrOf needle hay = true ↔ needle.toList <:+: hay.toList := by
  unfold isSubstrOf
  exact seqInfixOf_iff needle.toList hay.toList

/-- Helper: `jsUndefIfEmpty` never produces `some` of an empty string. -/
theorem jsUndefIfEmpty_nonempty {v s : String} (h : jsUndefIfEmpty v = some s) :
    s.isEmpty = false := by
  unfold jsUndefIfEmpty at h
  by_cases hv : v.isEmpty
  · simp [hv] at h
  · simp [hv] at h
    subst h
    simpa using hv

/-- C1: for every song whose `groupKey` is a Latin letter `L`,
`computePlan` returns a plan whose first step is press-letter(`L`) followed
by exactly `sequenceIndex` move-down steps and nothing else before the
optional trailing confirm step; and on the catalog built from the four
example rows, the query title="Binary Star" yields the plan
[press-letter('b'), move-down ×1]. -/
theorem computePlan_latin_letter (cfg : PlanConfig) (s : Song) (L : Char)
    (hg : s.groupKey = .letter L) :
    computePlan cfg s =
      ⟨.pressLetter L, cfg.jumpDelay⟩ ::
        (List.replicate s.sequenceIndex ⟨.moveDown, cfg.keyDelay⟩ ++ confirmSteps cfg) ∧
    planForQuery defaultConfig exampleCatalog ⟨none, some "Binary Star"⟩ =
      .ok [⟨.pressLetter 'b', defaultConfig.jumpDelay⟩,
           ⟨.moveDown, defaultConfig.keyDelay⟩] := by
  refine ⟨?_, by rfl⟩
  simp [computePlan, entrySteps, offsetSteps, hg]

/-- Witness for C1: the Latin-letter plan shape at the concrete song
"Binary Star" (group 'b', index 1). -/
theorem computePlan_latin_letter_witness :
    computePlan defaultConfig ⟨none, "Binary Star", "binarystar", .letter 'b', 1⟩ =
      ⟨.pressLetter 'b', defaultConfig.jumpDelay⟩ ::
        (List.replicate 1 ⟨.moveDown, defaultConfig.keyDelay⟩ ++ confirmSteps defaultConfig) :=
  (computePlan_latin_letter defaultConfig
    ⟨none, "Binary Star", "binarystar", .letter 'b', 1⟩ 'b' rfl).1

/-- C2: when a query carries both an id and a title and the id lookup
succeeds, resolution returns the id-matched song; the title lookup is
consulted only when the id is absent or the id lookup fails. -/
theorem resolve_id_precedence (c : SongCatalog) (q : NavigationQuery)
    (i : String) (s : Song) :
    (q.id = some i → lookupById c i = some s → resolve c q = .ok s) ∧
    (q.id = none → ∀ t, q.title = some t → resolve c q = lookupByTitle c t) ∧
    (q.id = some i → lookupById c i = none → ∀ t, q.title = some t →
      resolve c q = lookupByTitle c t) := by
  refine ⟨fun hid hlk => ?_, fun hid t ht => ?_, fun hid hlk t ht => ?_⟩
  · simp [resolve, hid, hlk]
  · simp [resolve, hid, ht]
  · simp [resolve, hid, hlk, ht]

/-- Witness for C2: in the precedence catalog, a query carrying id "002"
and the title "Alpha" (which names a different song) resolves to the song
"Beta" matched by the id. -/
theorem resolve_id_precedence_witness :
    resolve precedenceCatalog ⟨some "002", some "Alpha"⟩ =
      .ok ⟨some "002", "Beta", "beta", .letter 'b', 0⟩ :=
  (resolve_id_precedence precedenceCatalog ⟨some "002", some "Alpha"⟩ "002"
    ⟨some "002", "Beta", "beta", .letter 'b', 0⟩).1 rfl rfl

/-- C6: for every song whose `groupKey` is the non-Latin or the
symbol/digit overflow class, `computePlan` emits press-letter('a') as the
first step, followed by the corresponding quick-jump step, before any
move-down offset steps. -/
theorem computePlan_overflow_entry (cfg : PlanConfig) (s : Song) :
    (s.groupKey = .nonLatin →
      computePlan cfg s =
        ⟨.pressLetter 'a', cfg.jumpDelay⟩ :: ⟨.quickJumpNonLatin, cfg.jumpDelay⟩ ::
          (List.replicate s.sequenceIndex ⟨.moveDown, cfg.keyDelay⟩ ++ confirmSteps cfg)) ∧
    (s.groupKey = .symbolDigit →
      computePlan cfg s =
        ⟨.pressLetter 'a', cfg.jumpDelay⟩ :: ⟨.quickJumpSymbol, cfg.jumpDelay⟩ ::
          (List.replicate s.sequenceIndex ⟨.moveDown, cfg.keyDelay⟩ ++ confirmSteps cfg)) := by
  constructor <;> intro hg <;> simp [computePlan, entrySteps, offsetSteps, hg]

/-- Witness for C6: the overflow plan shape at a concrete non-Latin
song. -/
theorem computePlan_overflow_entry_witness :
    computePlan defaultConfig ⟨none, "가요", "가요", .nonLatin, 2⟩ =
      ⟨.pressLetter 'a', defaultConfig.jumpDelay⟩ ::
        ⟨.quickJumpNonLatin, defaultConfig.jumpDelay⟩ ::
          (List.replicate 2 ⟨.moveDown, defaultConfig.keyDelay⟩ ++
            confirmSteps defaultConfig) :=
  (computePlan_overflow_entry defaultConfig ⟨none, "가요", "가요", .nonLatin, 2⟩).1 rfl

/-- C8: catalog construction is deterministic — building twice from the
same row sequence yields the same catalog, and in particular identical
`groupKey` and `sequenceIndex` assignments for every song. -/
theorem load_deterministic (rows : List (String × String)) :
    load rows = load rows ∧
    (load rows).songs.map (fun s => (s.groupKey, s.sequenceIndex)) =
      (load rows).songs.map (fun s => (s.groupKey, s.sequenceIndex)) :=
  ⟨rfl, rfl⟩

/-- C9: in the browser userscripts, when the extracted payload carries
neither a truthy title nor a truthy title number, no HTTP request is
issued: `sendNavigate` returns after the warning without calling `fetch`,
and the rofebot handler returns before `postSelection` exactly when
`buildPayload` yields `null`, which happens precisely when both trimmed
extracted fields are empty. -/
theorem no_fetch_without_song_info (p : SongPayload) (t : RofeTile) :
    (jsTruthy p.title = false → jsTruthy p.title_number = false →
      sendNavigate p = .warned) ∧
    (buildPayload t = none → handleContextMenu t = .noPost) ∧
    (buildPayload t = none ↔
      ((jsOrStr t.datasetSongTitle t.titleText).trim.isEmpty = true ∧
       (jsOrStr (jsOr t.datasetSongNumber t.datasetSongId) t.numberText).trim.isEmpty
         = true)) := by
  refine ⟨fun h1 h2 => ?_, fun h => ?_, ?_⟩
  · simp [sendNavigate, h1, h2]
  · simp [handleContextMenu, h]
  · simp only [buildPayload]
    split
    next h => simp_all [Bool.and_eq_true]
    next h => simp_all [Bool.and_eq_true]

/-- Witness for C9: a payload with both fields undefined produces only the
warning. -/
theorem no_fetch_without_song_info_witness :
    sendNavigate ⟨none, none⟩ = .warned :=
  (no_fetch_without_song_info ⟨none, none⟩ ⟨none, none, none, "", ""⟩).1 rfl rfl

/-- C10: in both darlybot userscripts, the `title_number` and `title`
fields returned by `extractSong` are each either a non-empty string or
`undefined`, never the empty string. -/
theorem extractSong_fields_nonempty (t : DarlyTile) (u : DarlyTileB) :
    (∀ s, (extractSong t).title_number = some s → s.isEmpty = false) ∧
    (∀ s, (extractSong t).title = some s → s.isEmpty = false) ∧
    (∀ s, (extractSongB u).title_number = some s → s.isEmpty = false) ∧
    (∀ s, (extractSongB u).title = some s → s.isEmpty = false) := by
  refine ⟨fun s h => ?_, fun s h => ?_, fun s h => ?_, fun s h => ?_⟩ <;>
    exact jsUndefIfEmpty_nonempty h

/-- Witness for C10: a concrete tile whose dataset carries a number and a
title; the extracted fields are the same non-empty strings. -/
theorem extractSong_fields_nonempty_witness :
    ("12" : String).isEmpty = false :=
  (extractSong_fields_nonempty
    ⟨some "12", none, none, some "Song", none, none, ""⟩
    ⟨none, none, none, none, none, none, none, none, ""⟩).1 "12" rfl

/-- Helper: one gate transition preserves the at-most-one-in-flight
bound. -/
theorem gateStep_atMostOne (g : GateState) (e : GateEvent)
    (h : g.inFlight.length ≤ 1) : ((gateStep g e).1).inFlight.length ≤ 1 := by
  cases e with
  | request r =>
      by_cases hd : r.dryRun
      · simpa [gateStep, hd] using h
      · by_cases he : g.inFlight.isEmpty
        · simp [gateStep, hd, he]
        · simpa [gateStep, hd, he] using h
  | progress => simpa [gateStep] using h
  | finish => simp [gateStep]

/-- Helper: every run of the gate preserves the at-most-one-in-flight
bound. -/
theorem runGate_atMostOne (events : List GateEvent) (g : GateState)
    (h : g.inFlight.length ≤ 1) : (runGate g events).inFlight.length ≤ 1 := by
  induction events generalizing g with
  | nil => simpa [runGate] using h
  | cons e es ih =>
      show (runGate (gateStep g e).1 es).inFlight.length ≤ 1
      exact ih _ (gateStep_atMostOne g e h)

/-- C3: while a dispatch is in flight, a second non-dry-run request returns
Busy and leaves the gate state — including the in-flight dispatch's
completed-step progress — unchanged; in every state reachable from idle at
most one dispatch is in flight; and after any outcome the gate is idle
again, so a subsequent non-dry-run request is admitted. -/
theorem gate_exclusivity (g : GateState) (r : GateReq) (events : List GateEvent) :
    (r.dryRun = false → g.inFlight ≠ [] → gateStep g (.request r) = (g, .busy)) ∧
    (runGate idleGate events).inFlight.length ≤ 1 ∧
    (gateStep g .finish).1 = idleGate ∧
    (r.dryRun = false →
      gateStep idleGate (.request r) = (⟨[⟨r.plan, 0⟩]⟩, .admitted)) := by
  refine ⟨fun hd hne => ?_,
    runGate_atMostOne events idleGate (by simp [idleGate]), ?_, fun hd => ?_⟩
  · simp [gateStep, hd, List.isEmpty_iff, hne]
  · simp [gateStep, idleGate]
  · simp [gateStep, idleGate, hd]

/-- Witness for C3: with one dispatch in flight (two steps of progress
made), a concrete non-dry-run request is rejected with Busy and the state
is untouched. -/
theorem gate_exclusivity_witness :
    gateStep ⟨[⟨[], 2⟩]⟩ (.request ⟨false, []⟩) = (⟨[⟨[], 2⟩]⟩, .busy) :=
  (gate_exclusivity ⟨[⟨[], 2⟩]⟩ ⟨false, []⟩ []).1 rfl (by simp)

/-- Helper: the dry-run interpreter makes no OS calls and otherwise agrees
step for step — executed steps, timing and outcome — with the real
interpreter under an always-successful sender, from any start index. -/
theorem runPlan_dry_eq_real (cancel sendOk : Nat → Bool) :
    ∀ (plan : List InputStep) (k : Nat),
      (runPlan true cancel sendOk k plan).1.executed =
        (runPlan false cancel (fun _ => true) k plan).1.executed ∧
      (runPlan true cancel sendOk k plan).1.slept =
        (runPlan false cancel (fun _ => true) k plan).1.slept ∧
      (runPlan true cancel sendOk k plan).2 =
        (runPlan false cancel (fun _ => true) k plan).2 ∧
      (runPlan true cancel sendOk k plan).1.osSends = []
  | [], k => by simp [runPlan, emptyTrace]
  | step :: rest, k => by
      by_cases hc : cancel k = true
      · simp [runPlan, hc, emptyTrace]
      · have ih := runPlan_dry_eq_real cancel sendOk rest (k + 1)
        simp [runPlan, hc, ih.1, ih.2.1, ih.2.2.1, ih.2.2.2]

/-- Helper: under an always-successful sender, the real interpreter's OS
calls are exactly the actions of the steps it executed, in order. -/
theorem runPlan_real_osSends (cancel : Nat → Bool) :
    ∀ (plan : List InputStep) (k : Nat),
      (runPlan false cancel (fun _ => true) k plan).1.osSends =
        (runPlan false cancel (fun _ => true) k plan).1.executed.map InputStep.action
  | [], k => by simp [runPlan, emptyTrace]
  | step :: rest, k => by
      by_cases hc : cancel k = true
      · simp [runPlan, hc, emptyTrace]
      · simp [runPlan, hc, runPlan_real_osSends cancel rest (k + 1)]

/-- C4: a dry-run dispatch of any plan performs zero real OS key-injection
calls yet executes the same ordered step list, sleeps the same per-step
delays, and produces the same outcome as the real dispatch of that plan
would (under a sender that does not fail); the real dispatch's OS calls are
exactly the executed steps' key sends, so the two interpreters are equal up
to replacing the key-send effect by a no-op. -/
theorem dry_run_equiv (plan : List InputStep) (cancel sendOk : Nat → Bool) :
    (dispatch true cancel sendOk plan).1.osSends = [] ∧
    (dispatch true cancel sendOk plan).1.executed =
      (dispatch false cancel (fun _ => true) plan).1.executed ∧
    (dispatch true cancel sendOk plan).1.slept =
      (dispatch false cancel (fun _ => true) plan).1.slept ∧
    (dispatch true cancel sendOk plan).2 =
      (dispatch false cancel (fun _ => true) plan).2 ∧
    (dispatch false cancel (fun _ => true) plan).1.osSends =
      (dispatch false cancel (fun _ => true) plan).1.executed.map InputStep.action := by
  have h := runPlan_dry_eq_real cancel sendOk plan 0
  exact ⟨h.2.2.2, h.1, h.2.1, h.2.2.1, runPlan_real_osSends cancel plan 0⟩

/-- Helper: if the sender succeeds on the first `k` relative positions and
fails on the `k`-th, the real interpreter executes exactly the first `k`
steps and reports Aborted with `start + k` completed steps. -/
theorem runPlan_abort_from (cancel sendOk : Nat → Bool)
    (hcancel : ∀ j, cancel j = false) :
    ∀ (plan : List InputStep) (i k : Nat), k < plan.length →
      (∀ j, j < k → sendOk (i + j) = true) → sendOk (i + k) = false →
      (runPlan false cancel sendOk i plan).1.executed = plan.take k ∧
      (runPlan false cancel sendOk i plan).2 = ⟨i + k, .aborted⟩
  | [], _, k, hk, _, _ => absurd hk (by simp)
  | step :: rest, i, k, hk, hok, hfail => by
      cases k with
      | zero =>
          have h0 : sendOk i = false := by simpa using hfail
          simp [runPlan, hcancel i, h0]
      | succ k =>
          have hi : sendOk i = true := by simpa using hok 0 (Nat.succ_pos k)
          have harith : ∀ j : Nat, i + 1 + j = i + (j + 1) := by omega
          have ih := runPlan_abort_from cancel sendOk hcancel rest (i + 1) k
            (by simpa using Nat.lt_of_succ_lt_succ hk)
            (fun j hj => by
              rw [harith j]
              exact hok (j + 1) (Nat.succ_lt_succ hj))
            (by rw [harith k]; exact hfail)
          have hsum : i + 1 + k = i + (k + 1) := harith k
          simp [runPlan, hcancel i, hi, ih.1, ih.2, hsum]

/-- C5: if the underlying key-send call errors on step `k` of a plan, no
step after `k` is executed (the executed steps are exactly the first `k`)
and the outcome is Aborted with `completedSteps = k`, the number of steps
fully executed before the failure. -/
theorem dispatch_aborts_on_send_error (plan : List InputStep)
    (cancel sendOk : Nat → Bool) (k : Nat)
    (hcancel : ∀ j, cancel j = false)
    (hk : k < plan.length)
    (hok : ∀ j, j < k → sendOk j = true)
    (hfail : sendOk k = false) :
    (dispatch false cancel sendOk plan).1.executed = plan.take k ∧
    (dispatch false cancel sendOk plan).2 = ⟨k, .aborted⟩ := by
  have h := runPlan_abort_from cancel sendOk hcancel plan 0 k hk
    (fun j hj => by simpa using hok j hj) (by simpa using hfail)
  simpa using h

/-- Witness for C5: a three-step plan whose sender fails on the second step
executes only the first step and reports Aborted with one completed
step. -/
theorem dispatch_aborts_on_send_error_witness :
    (dispatch false (fun _ => false) (fun j => decide (j = 0))
        [⟨.moveDown, 1⟩, ⟨.moveDown, 2⟩, ⟨.moveDown, 3⟩]).1.executed =
      ([⟨.moveDown, 1⟩, ⟨.moveDown, 2⟩, ⟨.moveDown, 3⟩] :
        List InputStep).take 1 ∧
    (dispatch false (fun _ => false) (fun j => decide (j = 0))
        [⟨.moveDown, 1⟩, ⟨.moveDown, 2⟩, ⟨.moveDown, 3⟩]).2 = ⟨1, .aborted⟩ :=
  dispatch_aborts_on_send_error
    [⟨.moveDown, 1⟩, ⟨.moveDown, 2⟩, ⟨.moveDown, 3⟩]
    (fun _ => false) (fun j => decide (j = 0)) 1
    (fun _ => rfl) (by decide)
    (fun j hj => by
      have hj0 : j = 0 := Nat.lt_one_iff.mp hj
      subst hj0
      rfl)
    rfl

/-- C7: `lookupByTitle` compares the query's normalization against stored
titles that are themselves normalized by the same function; it fails with
SongNotFound exactly when no song matches the normalized query either
exactly or as a contiguous substring; and any successful lookup returns
either the first song in source order whose normalized title equals the
normalized query, or — when no exact match exists anywhere — the first
song in source order whose normalized title contains the normalized query
as a substring. -/
theorem lookupByTitle_correct (c : SongCatalog) (q : String)
    (rows : List (String × String)) :
    (∀ s ∈ (load rows).songs, s.normalizedTitle = normalize s.title) ∧
    (lookupByTitle c q = .error .songNotFound ↔
      ∀ s ∈ c.songs, s.normalizedTitle ≠ normalize q ∧
        ¬ (normalize q).toList <:+: s.normalizedTitle.toList) ∧
    (∀ s, lookupByTitle c q = .ok s →
      (∃ l1 l2, c.songs = l1 ++ s :: l2 ∧ s.normalizedTitle = normalize q ∧
        ∀ x ∈ l1, x.normalizedTitle ≠ normalize q) ∨
      ((∀ x ∈ c.songs, x.normalizedTitle ≠ normalize q) ∧
        ∃ l1 l2, c.songs = l1 ++ s :: l2 ∧
          (normalize q).toList <:+: s.normalizedTitle.toList ∧
          ∀ x ∈ l1, ¬ (normalize q).toList <:+: x.normalizedTitle.toList)) := by
  refine ⟨?_, ⟨?_, ?_⟩, ?_⟩
  · intro s hs
    cases rows with
    | nil => simp [load] at hs
    | cons r rest =>
        simp only [load] at hs
        by_cases hh : isHeaderTitle r.2 = true
        · rw [if_pos hh] at hs
          exact buildSongs_normalizedTitle rest _ s hs
        · rw [if_neg hh] at hs
          exact buildSongs_normalizedTitle (r :: rest) _ s hs
  · intro h s hs
    have hf1 : c.songs.find? (fun x => x.normalizedTitle == normalize q) = none := by
      cases hf : c.songs.find? (fun x => x.normalizedTitle == normalize q) with
      | none => rfl
      | some x => simp [lookupByTitle, hf] at h
    have hf2 : c.songs.find?
        (fun x => isSubstrOf (normalize q) x.normalizedTitle) = none := by
      cases hf : c.songs.find?
          (fun x => isSubstrOf (normalize q) x.normalizedTitle) with
      | none => rfl
      | some x => simp [lookupByTitle, hf1, hf] at h
    have h1 := List.find?_eq_none.mp hf1 s hs
    have h2 := List.find?_eq_none.mp hf2 s hs
    refine ⟨by simpa using h1, fun hinf => ?_⟩
    exact h2 (by simpa [isSubstrOf_iff] using hinf)
  · intro h
    have hf1 : c.songs.find? (fun x => x.normalizedTitle == normalize q) = none :=
      List.find?_eq_none.mpr fun x hx => by simpa using (h x hx).1
    have hf2 : c.songs.find?
        (fun x => isSubstrOf (normalize q) x.normalizedTitle) = none :=
      List.find?_eq_none.mpr fun x hx hsub =>
        (h x hx).2 ((isSubstrOf_iff _ _).mp hsub)
    simp [lookupByTitle, hf1, hf2]
  · intro s h
    cases hf1 : c.songs.find? (fun x => x.normalizedTitle == normalize q) with
    | some x =>
        have hx : x = s := by simpa [lookupByTitle, hf1] using h
        subst hx
        left
        obtain ⟨l1, l2, hsplit, hpa, hall⟩ := find?_eq_some_first hf1
        refine ⟨l1, l2, hsplit, by simpa using hpa, fun y hy => ?_⟩
        simpa using hall y hy
    | none =>
        cases hf2 : c.songs.find?
            (fun x => isSubstrOf (normalize q) x.normalizedTitle) with
        | some x =>
            have hx : x = s := by simpa [lookupByTitle, hf1, hf2] using h
            subst hx
            right
            refine ⟨fun y hy => by simpa using List.find?_eq_none.mp hf1 y hy, ?_⟩
            obtain ⟨l1, l2, hsplit, hpa, hall⟩ := find?_eq_some_first hf2
            refine ⟨l1, l2, hsplit, (isSubstrOf_iff _ _).mp hpa, fun y hy hsub => ?_⟩
            have hfalse := hall y hy
            rw [(isSubstrOf_iff _ _).mpr hsub] at hfalse
            cases hfalse
        | none => simp [lookupByTitle, hf1, hf2] at h

/-- Witness for C7: the spec's own negative example — the query
"ZZZ-Unknown" against the example catalog fails with SongNotFound. -/
theorem lookupByTitle_correct_witness :
    lookupByTitle exampleCatalog "ZZZ-Unknown" = .error .songNotFound :=
  (lookupByTitle_correct exampleCatalog "ZZZ-Unknown" exampleRows).2.1.mpr
    (by decide)

end Darlybot
